import Mathlib

/-
Verification of the Frozor-Slack client library core (src/lib/SlackAPI.js)
against its natural-language specification.

The JavaScript source is shallowly embedded: each operation becomes a pure
Lean function over explicit inputs (the transport is an oracle argument),
callback invocations become returned values, and JavaScript's heterogeneous
callback arguments become small sum types mirroring the runtime types
(Error object / string / number / undefined).
-/

namespace FrozorSlack

/-- The JavaScript values the source passes in the error position of a
callback: a transport Error object, a string error code from a response
body, a numeric HTTP status code, or undefined. -/
inductive JsErr
| errObj (cause : String)
| str (s : String)
| num (n : Nat)
| undef
deriving DecidableEq

/-- A parsed JSON response body as assumed at the transport boundary: an
`ok` flag, an optional `error` code field, and the remaining payload. -/
structure SlackBody (α : Type) where
  ok : Bool
  error : Option String
  payload : α
deriving DecidableEq

/-- What the external transport (the `request` module) hands to its
callback: either a transport-level error, or a status code with a parsed
body. -/
inductive TransportOutcome (α : Type)
| err (cause : String)
| ok (statusCode : Nat) (body : SlackBody α)
deriving DecidableEq

/-- The single callback invocation performed by `makeRequest`:
`callback(err)` on any failure, `callback(null, body)` on success. -/
inductive MakeRequestResult (α : Type)
| fail (e : JsErr)
| success (body : SlackBody α)
deriving DecidableEq

/-- JavaScript truthiness of the `error` field read by
`if(body.error)`: an absent field and the empty string are falsy. -/
def truthyStr : Option String → Bool
| none => false
| some s => !(s == ("" : String))

/-- The JavaScript value `body.error` as passed to `callback(body.error)`:
undefined when the field is absent. -/
def errField : Option String → JsErr
| none => JsErr.undef
| some s => JsErr.str s

/-- Embedding of `makeRequest` (src/lib/SlackAPI.js lines 52-77): transport
error first, then non-200 with/without a truthy `body.error`, then
`!body.ok`, else success with the body. -/
def makeRequest {α : Type} (outcome : TransportOutcome α) : MakeRequestResult α :=
  match outcome with
  | TransportOutcome.err cause => MakeRequestResult.fail (JsErr.errObj cause)
  | TransportOutcome.ok statusCode body =>
    if statusCode ≠ 200 then
      if truthyStr body.error then MakeRequestResult.fail (errField body.error)
      else MakeRequestResult.fail (JsErr.num statusCode)
    else if !body.ok then MakeRequestResult.fail (errField body.error)
    else MakeRequestResult.success body

/-- The two positional arguments `(err, result)` a `makeRequest` callback
receives; the absent one is undefined (`none`). -/
def callbackArgs {α : Type} (r : MakeRequestResult α) :
    Option JsErr × Option (SlackBody α) :=
  match r with
  | MakeRequestResult.fail e => (some e, none)
  | MakeRequestResult.success b => (none, some b)

/-- A JavaScript value as it can appear in a request argument object. -/
inductive JSValue
| str (s : String)
| num (n : Int)
| bool (b : Bool)
| null
| arr (xs : List JSValue)
| obj (fields : List (String × JSValue))

/-- Uppercase hexadecimal digit, as produced by `encodeURIComponent`. -/
def hexDigitChar (n : Nat) : Char :=
  if n < 10 then Char.ofNat (48 + n) else Char.ofNat (55 + n)

/-- A percent-escaped byte, e.g. byte 34 becomes `%22`. -/
def percentByte (b : Nat) : List Char :=
  [Char.ofNat 37, hexDigitChar (b / 16), hexDigitChar (b % 16)]

/-- UTF-8 bytes of a Unicode code point. -/
def utf8Bytes (n : Nat) : List Nat :=
  if n < 128 then [n]
  else if n < 2048 then [192 + n / 64, 128 + n % 64]
  else if n < 65536 then [224 + n / 4096, 128 + (n / 64) % 64, 128 + n % 64]
  else [240 + n / 262144, 128 + (n / 4096) % 64, 128 + (n / 64) % 64, 128 + n % 64]

/-- Characters `encodeURIComponent` leaves unescaped: ASCII letters, digits,
and the marks with code points 45 `-`, 95 `_`, 46 `.`, 33 `!`, 126 `~`,
42 `*`, 39, 40 `(`, 41 `)`. -/
def isUriUnreserved (c : Char) : Bool :=
  let n := c.toNat
  (48 ≤ n && n ≤ 57) || (65 ≤ n && n ≤ 90) || (97 ≤ n && n ≤ 122) ||
    [45, 95, 46, 33, 126, 42, 39, 40, 41].contains n

/-- One character of `encodeURIComponent` output: unreserved characters
pass through, anything else is percent-escaped byte by byte. -/
def encodeChar (c : Char) : List Char :=
  if isUriUnreserved c then [c] else (utf8Bytes c.toNat).flatMap percentByte

/-- Model of the JavaScript builtin `encodeURIComponent`. -/
def encodeURIComponent (s : String) : String :=
  String.mk (s.data.flatMap encodeChar)

/-- JSON string escaping for the characters the claims exercise
(quote, backslash, and the common control characters). -/
def jsonEscapeChar (c : Char) : List Char :=
  if c.toNat = 34 then [Char.ofNat 92, Char.ofNat 34]
  else if c.toNat = 92 then [Char.ofNat 92, Char.ofNat 92]
  else if c.toNat = 10 then [Char.ofNat 92, Char.ofNat 110]
  else if c.toNat = 13 then [Char.ofNat 92, Char.ofNat 114]
  else if c.toNat = 9 then [Char.ofNat 92, Char.ofNat 116]
  else [c]

/-- A JSON string literal: the contents escaped and wrapped in quotes. -/
def jsonQuote (s : String) : String :=
  String.mk (Char.ofNat 34 :: (s.data.flatMap jsonEscapeChar ++ [Char.ofNat 34]))

mutual

/-- Model of `JSON.stringify` on the embedded value type. -/
def jsonStringify : JSValue → String
| JSValue.str s => jsonQuote s
| JSValue.num n => toString n
| JSValue.bool true => ("true")
| JSValue.bool false => ("false")
| JSValue.null => ("null")
| JSValue.arr xs => ("[") ++ String.intercalate (",") (jsonStringifyArr xs) ++ ("]")
| JSValue.obj fs => ("\x7b") ++ String.intercalate (",") (jsonStringifyObj fs) ++ ("\x7d")

/-- Serialized elements of a JSON array. -/
def jsonStringifyArr : List JSValue → List String
| [] => []
| v :: vs => jsonStringify v :: jsonStringifyArr vs

/-- Serialized `key:value` members of a JSON object. -/
def jsonStringifyObj : List (String × JSValue) → List String
| [] => []
| p :: ps => (jsonQuote p.1 ++ (":") ++ jsonStringify p.2) :: jsonStringifyObj ps

end

/-- The value interpolated into the query string: strings and numbers pass
through (`typeof value` check in the source), everything else is
`JSON.stringify`-ed first. -/
def queryStringOf : JSValue → String
| JSValue.str s => s
| JSValue.num n => toString n
| v => jsonStringify v

/-- Embedding of `createSlackRequestUrl` (src/lib/SlackAPI.js lines 31-44):
base url concatenated with the method, then `key=value` pairs pushed in
insertion order and joined with `&` after a `?`. -/
def createSlackRequestUrl (baseUrl method : String)
    (argObject : List (String × JSValue)) : String :=
  let base_url := baseUrl ++ method
  let args := argObject.foldl
    (fun acc p => acc ++ [p.1 ++ ("=") ++ encodeURIComponent (queryStringOf p.2)]) []
  base_url ++ ("?") ++ String.intercalate ("&") args

/-- An entity object as cached: identity is the `id` field, the rest of the
shape is opaque and carried as `payload`. `slackObject name id` below builds
the `SlackObject(name, id)` shape used by `auth.test`. -/
structure Entity where
  id : String
  payload : String
deriving DecidableEq

/-- A cache partition: a JavaScript object keyed by id, modelled as an
insertion-ordered association list. -/
def Partition : Type := List (String × Entity)

instance : DecidableEq Partition := by
  unfold Partition
  infer_instance

/-- Property read `part[k]` on a partition object. -/
def assocGet (p : Partition) (k : String) : Option Entity :=
  match p with
  | [] => none
  | (k1, v) :: rest => if k1 = k then some v else assocGet rest k

/-- Property write `part[k] = v`: overwrite in place, or append a new key
in insertion order. -/
def assocSet (p : Partition) (k : String) (v : Entity) : Partition :=
  match p with
  | [] => [(k, v)]
  | (k1, v1) :: rest => if k1 = k then (k, v) :: rest else (k1, v1) :: assocSet rest k v

/-- `hasOwnProperty(k)` on a partition object. -/
def hasOwn (p : Partition) (k : String) : Bool :=
  (assocGet p k).isSome

/-- The first positional argument the storage-layer `get` passes to its
callback. The source passes `null` on a cache hit, the dispatcher error on
failure, and (miss path, line 176) the fetched entity itself. -/
inductive CbFirst
| nullArg
| errArg (e : JsErr)
| entityArg (e : Entity)
deriving DecidableEq

/-- Everything observable about one `get(id, cb)` call: the ids requested
through `info`-style dispatcher calls, the two callback arguments, and the
partition afterwards. -/
structure GetOutcome where
  infoCalls : List String
  cbFirst : CbFirst
  cbSecond : Option Entity
  part : Partition
deriving DecidableEq

/-- Embedding of `getIdBasedObjectStorage(...).get` (src/lib/SlackAPI.js
lines 164-178). On a hit: `cb(null, cache[id])`, no dispatcher call. On a
miss: one `info` call; on its failure `cb(err)`; on its success the entity
is stored under the id found in the response body (read-after-write of the
same property) and passed to `cb` as the FIRST argument (`cb(entity)`). -/
def storageGet (part : Partition) (id : String)
    (remote : TransportOutcome Entity) : GetOutcome :=
  if hasOwn part id then
    { infoCalls := [], cbFirst := CbFirst.nullArg, cbSecond := assocGet part id, part := part }
  else
    match makeRequest remote with
    | MakeRequestResult.fail e =>
      { infoCalls := [id], cbFirst := CbFirst.errArg e, cbSecond := none, part := part }
    | MakeRequestResult.success body =>
      let ent := body.payload
      { infoCalls := [id], cbFirst := CbFirst.entityArg ent, cbSecond := none,
        part := assocSet part ent.id ent }

/-- Embedding of `getIdBasedObjectStorage(...).save` (lines 197-201):
unconditional upsert under `idObj.id`. -/
def storageSave (part : Partition) (idObj : Entity) : Partition :=
  assocSet part idObj.id idObj

/-- The calls issued by invoking `get(id)` repeatedly, each call starting
from the partition state the previous one left behind. -/
def iterGetCalls (part : Partition) (id : String)
    (remote : TransportOutcome Entity) : Nat → List String
| 0 => []
| n + 1 =>
  let o := storageGet part id remote
  o.infoCalls ++ iterGetCalls o.part id remote n

/-- A synchronous JavaScript abort: an exception thrown instead of a
callback or event delivery. -/
inductive JsException
| referenceError (name : String)
| jsError (msg : String)
deriving DecidableEq

/-- `cache[storagePlural]` creation performed by `create()`: `none` models
a partition that has never been created. -/
def createIfNotExists (c : Option Partition) : Option Partition :=
  match c with
  | none => some []
  | some p => some p

/-- Identifier resolution inside `getIdBasedObjectStorage`: the only local
bindings are `storageName` and `storagePlural` (plus the closure methods);
any other identifier read raises a ReferenceError in JavaScript. -/
def allScope (storageName storagePlural : String) (ident : String) : Option String :=
  if ident = ("storageName") then some storageName
  else if ident = ("storagePlural") then some storagePlural
  else none

/-- Everything observable about one `all(cb)` call: the partition cache
afterwards, how many `list` dispatcher calls were issued, the callback
invocations, and the exception if the call aborted. -/
structure AllOutcome where
  cache : Option Partition
  listCalls : Nat
  cbInvocations : List (Option JsErr × Option Partition)
  thrown : Option JsException
deriving DecidableEq

/-- Embedding of `getIdBasedObjectStorage(...).all` (src/lib/SlackAPI.js
lines 202-216). The source first runs `create()`, then evaluates
`this.cache.hasOwnProperty(plural)` — but `plural` is not declared
anywhere in the enclosing scopes (the local is named `storagePlural`), so
the guard raises a ReferenceError before the callback or the `list`
dispatcher call is reached. The resolved branch is unreachable. -/
def storageAll (storageName : String) (cache : Option Partition) : AllOutcome :=
  let storagePlural := storageName ++ ("s")
  let cache1 := createIfNotExists cache
  match allScope storageName storagePlural ("plural") with
  | some _ =>
    { cache := cache1, listCalls := 0, cbInvocations := [], thrown := none }
  | none =>
    { cache := cache1, listCalls := 0, cbInvocations := [],
      thrown := some (JsException.referenceError ("plural")) }

/-- The client facade's cache: the two singleton slots plus the three
id-based partitions (`hasOwnProperty` on a slot is `isSome`). -/
structure SlackCache where
  self : Option Entity
  team : Option Entity
  users : Partition
  channels : Partition
  groups : Partition
deriving DecidableEq

/-- The snapshot payload carried by the `orgData` event. -/
structure OrgData where
  self : Entity
  team : Entity
  users : List Entity
  channels : List Entity
  groups : List Entity
  mpims : List Entity
  ims : List Entity
  bots : List Entity
deriving DecidableEq

/-- `storage.self.save`: unconditional overwrite of the singleton slot. -/
def selfSave (st : SlackCache) (u : Entity) : SlackCache :=
  { st with self := some u }

/-- `storage.team.save`: unconditional overwrite of the singleton slot. -/
def teamSave (st : SlackCache) (t : Entity) : SlackCache :=
  { st with team := some t }

/-- Embedding of the facade's `orgData` handler (src/lib/SlackAPI.js lines
261-279): save self and team unconditionally, then save every user,
channel and group from the snapshot. -/
def handleOrgData (st : SlackCache) (d : OrgData) : SlackCache :=
  let st1 := selfSave st d.self
  let st2 := teamSave st1 d.team
  let st3 := { st2 with users := d.users.foldl storageSave st2.users }
  let st4 := { st3 with channels := d.channels.foldl storageSave st3.channels }
  { st4 with groups := d.groups.foldl storageSave st4.groups }

/-- The `new SlackObject(name, id)` shape written by `auth.test`. -/
def slackObject (name id : String) : Entity :=
  { id := id, payload := name }

/-- The response body payload of the `auth.test` method. -/
structure AuthBody where
  user : String
  user_id : String
  team : String
  team_id : String
deriving DecidableEq

/-- The slot writes of the `auth.test` override (src/lib/SlackAPI.js lines
332-339): each singleton slot is written only when it is still empty
(`!this.cache.hasOwnProperty(...)`). -/
def authTestUpdate (st : SlackCache) (res : AuthBody) : SlackCache :=
  let st1 := if st.self.isSome then st else selfSave st (slackObject res.user res.user_id)
  if st1.team.isSome then st1 else teamSave st1 (slackObject res.team res.team_id)

/-- Embedding of the full `auth.test` override: dispatcher failure is
passed to the callback unchanged with no cache write; success applies the
conditional slot writes and then calls `cb(null, res)`. -/
def authTest (st : SlackCache) (remote : TransportOutcome AuthBody) :
    SlackCache × Option JsErr × Option (SlackBody AuthBody) :=
  match makeRequest remote with
  | MakeRequestResult.fail e => (st, some e, none)
  | MakeRequestResult.success body => (authTestUpdate st body.payload, none, some body)

/-- The response body payload of `rtm.start`: the websocket url plus the
initial organization snapshot. -/
structure RtmStartBody where
  url : String
  self : Entity
  team : Entity
  users : List Entity
  channels : List Entity
  groups : List Entity
  mpims : List Entity
  ims : List Entity
  bots : List Entity
deriving DecidableEq

/-- The `orgData` event payload assembled by `SlackRTM.start` from the
`rtm.start` response. -/
def orgDataOfBody (b : RtmStartBody) : OrgData :=
  { self := b.self, team := b.team, users := b.users, channels := b.channels,
    groups := b.groups, mpims := b.mpims, ims := b.ims, bots := b.bots }

/-- The value attached to an emitted signal: no argument at all
(undefined), an organization snapshot, or an error value. -/
inductive EmitPayload
| undef
| org (d : OrgData)
| val (e : JsErr)
deriving DecidableEq

/-- Everything observable about one `SlackRTM.start()` call: how many
dispatcher calls it made, the `(name, payload)` signals emitted in order,
and the url the persistent socket was connected to, if any. -/
structure RtmStartOutcome where
  dispatchCalls : Nat
  emitted : List (String × EmitPayload)
  socketConnect : Option String
deriving DecidableEq

/-- Embedding of `SlackRTM.start` (src/lib/SlackAPI.js lines 103-131). One
`rtm.start` dispatcher call. On failure the source runs
`this.emit('requestFail', result)` — `result` is the callback's second
parameter, which is undefined because `makeRequest` invokes the callback
as `callback(err)` — and neither retries nor connects the socket. On
success it emits `requestSuccess`, then `orgData` with the snapshot, then
connects the socket to the returned url. -/
def rtmStart (outcome : TransportOutcome RtmStartBody) : RtmStartOutcome :=
  match callbackArgs (makeRequest outcome) with
  | (some _err, result) =>
    { dispatchCalls := 1,
      emitted := [(("requestFail"),
        match result with
        | none => EmitPayload.undef
        | some b => EmitPayload.org (orgDataOfBody b.payload))],
      socketConnect := none }
  | (none, some body) =>
    { dispatchCalls := 1,
      emitted := [(("requestSuccess"), EmitPayload.undef),
                  (("orgData"), EmitPayload.org (orgDataOfBody body.payload))],
      socketConnect := some body.payload.url }
  | (none, none) =>
    { dispatchCalls := 1, emitted := [], socketConnect := none }

/-- JavaScript falsiness of `args.text`: an absent argument and the empty
string are both falsy. -/
def jsFalsy : Option String → Bool
| none => true
| some s => s == ("" : String)

/-- The queue built by the splitting loop of `chat.postMessage` (lines
355-362): while more than 2999 units remain, push `substr(0, 3000)` and
drop 3000; finally push the remainder (possibly empty). -/
def splitChunks (msg : List Char) : List (List Char) :=
  if _h : 2999 < msg.length then
    msg.take 3000 :: splitChunks (msg.drop 3000)
  else [msg]
termination_by msg.length
decreasing_by
  simp only [List.length_drop]
  omega

/-- The chunk queue as strings, in send order. -/
def chunksOf (t : String) : List String :=
  (splitChunks t.data).map (fun cs => String.mk cs)

/-- Embedding of the `next()` loop of `chat.postMessage` (lines 364-374):
send the head chunk through `makeRequest`; on its failure call
`cb(err, res)` (with `res` undefined) and stop; on success recurse while
the queue is nonempty, else call `cb(null, res)`. The oracle gives the
transport outcome of the i-th dispatcher call. Returns the chunk texts
actually sent and the final callback arguments. -/
def runChunks {β : Type} (oracle : Nat → TransportOutcome β) :
    List String → Nat → List String × (Option JsErr × Option (SlackBody β))
| [], _ => ([], (none, none))
| t :: rest, i =>
  match makeRequest (oracle i) with
  | MakeRequestResult.fail e => ([t], (some e, none))
  | MakeRequestResult.success body =>
    if rest.isEmpty then ([t], (none, some body))
    else
      let r := runChunks oracle rest (i + 1)
      (t :: r.1, r.2)

/-- Everything observable about one `chat.postMessage(args, cb)` call: the
exception if the call aborted synchronously, the text of each dispatcher
call issued in order, and the callback arguments (`none` when the callback
was never invoked). -/
structure PostOutcome (β : Type) where
  thrown : Option JsException
  calls : List String
  cbOut : Option (Option JsErr × Option (SlackBody β))
deriving DecidableEq

/-- Embedding of the `chat.postMessage` override (src/lib/SlackAPI.js
lines 342-376). A falsy `args.text` throws before any dispatcher call.
Text longer than 2999 units is split into the chunk queue and sent
strictly sequentially through the `next()` loop; otherwise a single
dispatcher call carries the text unmodified. -/
def postMessage {β : Type} (text : Option String)
    (oracle : Nat → TransportOutcome β) : PostOutcome β :=
  if jsFalsy text then
    { thrown := some (JsException.jsError ("Text is required in chat.postMessage")),
      calls := [], cbOut := none }
  else
    let t := text.getD ("")
    if 2999 < t.length then
      let r := runChunks oracle (chunksOf t) 0
      { thrown := none, calls := r.1, cbOut := some r.2 }
    else
      { thrown := none, calls := [t],
        cbOut := some (callbackArgs (makeRequest (oracle 0))) }

/-- A transport oracle where every call succeeds with a 200, `ok:true`
body whose payload records the call index, so the reported response
identifies which call produced it. -/
def okOracleN : Nat → TransportOutcome Nat :=
  fun i => TransportOutcome.ok 200 { ok := true, error := none, payload := i }

/-- A transport oracle whose k-th call fails at the transport level with
the given cause, every other call succeeding as in `okOracleN`. -/
def failAt (k : Nat) (cause : String) : Nat → TransportOutcome Nat :=
  fun i => if i = k then TransportOutcome.err cause
    else TransportOutcome.ok 200 { ok := true, error := none, payload := i }

theorem assocGet_assocSet (p : Partition) (k : String) (v : Entity) (k2 : String) :
    assocGet (assocSet p k v) k2 = if k = k2 then some v else assocGet p k2 := by
  induction p with
  | nil => simp [assocSet, assocGet]
  | cons hd tl ih =>
    obtain ⟨k1, v1⟩ := hd
    by_cases h1 : k1 = k
    · subst h1
      by_cases h2 : k1 = k2 <;> simp [assocSet, assocGet, h2]
    · by_cases h2 : k1 = k2
      · subst h2
        simp [assocSet, assocGet, h1, Ne.symm h1]
      · simp [assocSet, assocGet, h1, h2, ih]

theorem assocGet_isSome_of_eq_some (p : Partition) (k : String) (e : Entity)
    (h : assocGet p k = some e) : hasOwn p k = true := by
  simp [hasOwn, h]

/-- Claim C1: makeRequest classifies every dispatcher call outcome in
order: a transport failure surfaces the transport error; a non-200 status
with a (truthy) structured error field surfaces that code; a non-200
status without one surfaces the raw status code; a 200 status with a
body-level not-ok flag surfaces the body's error code; otherwise the
parsed body is returned as success. The four example error values are
pairwise distinguishable. -/
theorem makeRequest_classification :
    (∀ cause : String, makeRequest (α := Unit) (TransportOutcome.err cause) =
        MakeRequestResult.fail (JsErr.errObj cause))
  ∧ (∀ (sc : Nat) (body : SlackBody Unit) (code : String),
      sc ≠ 200 → body.error = some code → code ≠ ("") →
      makeRequest (TransportOutcome.ok sc body) = MakeRequestResult.fail (JsErr.str code))
  ∧ (∀ (sc : Nat) (body : SlackBody Unit),
      sc ≠ 200 → truthyStr body.error = false →
      makeRequest (TransportOutcome.ok sc body) = MakeRequestResult.fail (JsErr.num sc))
  ∧ (∀ (body : SlackBody Unit) (code : String),
      body.ok = false → body.error = some code →
      makeRequest (TransportOutcome.ok 200 body) = MakeRequestResult.fail (JsErr.str code))
  ∧ (∀ body : SlackBody Unit, body.ok = true →
      makeRequest (TransportOutcome.ok 200 body) = MakeRequestResult.success body)
  ∧ List.Pairwise (fun a b => a ≠ b)
      [JsErr.errObj ("ETIMEDOUT"), JsErr.str ("rate_limited"), JsErr.num 500,
       JsErr.str ("invalid_auth")] := by
  refine ⟨fun cause => rfl, ?_, ?_, ?_, ?_, by decide⟩
  · intro sc body code hsc herr hcode
    simp [makeRequest, truthyStr, errField, hsc, herr, hcode]
  · intro sc body hsc htr
    simp [makeRequest, hsc, htr]
  · intro body code hok herr
    simp [makeRequest, truthyStr, errField, hok, herr]
  · intro body hok
    simp [makeRequest, hok]

theorem makeRequest_classification_witness :
    makeRequest (α := Unit) (TransportOutcome.err ("ETIMEDOUT")) =
      MakeRequestResult.fail (JsErr.errObj ("ETIMEDOUT"))
  ∧ makeRequest (TransportOutcome.ok 500 { ok := true, error := some ("rate_limited"), payload := () }) =
      MakeRequestResult.fail (JsErr.str ("rate_limited"))
  ∧ makeRequest (TransportOutcome.ok 500 { ok := true, error := none, payload := () }) =
      MakeRequestResult.fail (JsErr.num 500)
  ∧ makeRequest (TransportOutcome.ok 200 { ok := false, error := some ("invalid_auth"), payload := () }) =
      MakeRequestResult.fail (JsErr.str ("invalid_auth"))
  ∧ makeRequest (TransportOutcome.ok 200 { ok := true, error := none, payload := () }) =
      MakeRequestResult.success { ok := true, error := none, payload := () } := by
  refine ⟨makeRequest_classification.1 _, ?_, ?_, ?_, ?_⟩
  · exact makeRequest_classification.2.1 500 _ _ (by decide) rfl (by decide)
  · exact makeRequest_classification.2.2.1 500 _ (by decide) (by decide)
  · exact makeRequest_classification.2.2.2.1 _ _ rfl rfl
  · exact makeRequest_classification.2.2.2.2.1 _ rfl

/-- Claim C3: first-write-wins for the self and team singleton slots.
Starting from empty slots, a snapshot (orgData) write followed by an
identity-check (auth.test) write leaves the snapshot values in place, and
so does the reverse order, because the snapshot path overwrites
unconditionally while the identity-check path writes only empty slots. -/
theorem singleton_slots_first_write_wins
    (st : SlackCache) (d : OrgData) (res : AuthBody)
    (_hself : st.self = none) (_hteam : st.team = none) :
    ((authTestUpdate (handleOrgData st d) res).self = some d.self
      ∧ (authTestUpdate (handleOrgData st d) res).team = some d.team)
  ∧ ((handleOrgData (authTestUpdate st res) d).self = some d.self
      ∧ (handleOrgData (authTestUpdate st res) d).team = some d.team) := by
  constructor
  · constructor <;> simp [handleOrgData, authTestUpdate, selfSave, teamSave]
  · constructor <;> simp [handleOrgData, selfSave, teamSave]

theorem singleton_slots_first_write_wins_witness :
    ((authTestUpdate
        (handleOrgData { self := none, team := none, users := [], channels := [], groups := [] }
          { self := { id := ("U1"), payload := ("rich-self") },
            team := { id := ("T1"), payload := ("rich-team") },
            users := [], channels := [], groups := [], mpims := [], ims := [], bots := [] })
        { user := ("spencer"), user_id := ("U1"), team := ("frozor"), team_id := ("T1") }).self =
      some { id := ("U1"), payload := ("rich-self") })
  ∧ ((handleOrgData
        (authTestUpdate { self := none, team := none, users := [], channels := [], groups := [] }
          { user := ("spencer"), user_id := ("U1"), team := ("frozor"), team_id := ("T1") })
        { self := { id := ("U1"), payload := ("rich-self") },
          team := { id := ("T1"), payload := ("rich-team") },
          users := [], channels := [], groups := [], mpims := [], ims := [], bots := [] }).self =
      some { id := ("U1"), payload := ("rich-self") }) := by
  have h := singleton_slots_first_write_wins
    { self := none, team := none, users := [], channels := [], groups := [] }
    { self := { id := ("U1"), payload := ("rich-self") },
      team := { id := ("T1"), payload := ("rich-team") },
      users := [], channels := [], groups := [], mpims := [], ims := [], bots := [] }
    { user := ("spencer"), user_id := ("U1"), team := ("frozor"), team_id := ("T1") }
    rfl rfl
  exact ⟨h.1.1, h.2.1⟩

/-- Claim C4 (code bug): on a cache miss, get issues one info-style call
and stores the fetched entity under the id the server returned, but then
passes the entity to the callback as the FIRST argument — the error
position — with no second argument, unlike the cache-hit path of the same
function, which calls back with (null, entity). The failure path passes
the dispatcher error through unchanged and leaves the partition
untouched. -/
theorem storageGet_miss_misplaces_entity :
    (storageGet [] ("U1")
        (TransportOutcome.ok 200 { ok := true, error := none, payload := { id := ("U1"), payload := ("Spencer") } }) =
      { infoCalls := [("U1")],
        cbFirst := CbFirst.entityArg { id := ("U1"), payload := ("Spencer") },
        cbSecond := none,
        part := [(("U1"), { id := ("U1"), payload := ("Spencer") })] })
  ∧ (storageGet [(("U1"), { id := ("U1"), payload := ("Spencer") })] ("U1")
        (TransportOutcome.err ("unused")) =
      { infoCalls := [], cbFirst := CbFirst.nullArg,
        cbSecond := some { id := ("U1"), payload := ("Spencer") },
        part := [(("U1"), { id := ("U1"), payload := ("Spencer") })] })
  ∧ (storageGet [] ("U1") (TransportOutcome.err ("ETIMEDOUT")) =
      { infoCalls := [("U1")], cbFirst := CbFirst.errArg (JsErr.errObj ("ETIMEDOUT")),
        cbSecond := none, part := [] })
  ∧ (storageGet [] ("U1")
        (TransportOutcome.ok 200 { ok := true, error := none, payload := { id := ("U2"), payload := ("renamed") } }) =
      { infoCalls := [("U1")],
        cbFirst := CbFirst.entityArg { id := ("U2"), payload := ("renamed") },
        cbSecond := none,
        part := [(("U2"), { id := ("U2"), payload := ("renamed") })] })
  ∧ CbFirst.entityArg { id := ("U1"), payload := ("Spencer") } ≠ CbFirst.nullArg := by
  refine ⟨by decide, by decide, by decide, by decide, by decide⟩

/-- Claim C7 (code bug): all() can never return the partition or fetch it.
Its guard reads the undeclared identifier plural (the local is named
storagePlural), so after the unconditional create() every call aborts with
a ReferenceError before the callback is invoked or a list-style dispatcher
call is issued — on a fresh partition and on a populated one alike. -/
theorem storageAll_reference_error :
    (storageAll ("user") none =
      { cache := some [], listCalls := 0, cbInvocations := [],
        thrown := some (JsException.referenceError ("plural")) })
  ∧ (storageAll ("user") (some [(("U1"), { id := ("U1"), payload := ("Spencer") })]) =
      { cache := some [(("U1"), { id := ("U1"), payload := ("Spencer") })],
        listCalls := 0, cbInvocations := [],
        thrown := some (JsException.referenceError ("plural")) }) := by
  exact ⟨rfl, rfl⟩

/-- Claim C8 (code bug): when the rtm.start bootstrap call fails, start
emits exactly one requestFail signal, performs no retry and does not
connect the socket — but the signal carries the callback's result
parameter, which is undefined on failure, rather than the error value the
dispatcher produced. -/
theorem rtmStart_failure_emits_undefined :
    (rtmStart (TransportOutcome.err ("ECONNREFUSED")) =
      { dispatchCalls := 1, emitted := [(("requestFail"), EmitPayload.undef)],
        socketConnect := none })
  ∧ EmitPayload.undef ≠ EmitPayload.val (JsErr.errObj ("ECONNREFUSED")) := by
  exact ⟨rfl, by decide⟩

/-- Claim C6 (code bug): chat.postMessage with an absent or empty text
argument throws synchronously before any dispatcher call — but it is not
the only synchronous-abort path in the core, because all() also aborts
synchronously with a ReferenceError on every call (see the claim about
all()). -/
theorem postMessage_validation_short_circuit :
    (∀ oracle : Nat → TransportOutcome Nat,
        postMessage none oracle =
          { thrown := some (JsException.jsError ("Text is required in chat.postMessage")),
            calls := [], cbOut := none })
  ∧ (∀ oracle : Nat → TransportOutcome Nat,
        postMessage (some ("")) oracle =
          { thrown := some (JsException.jsError ("Text is required in chat.postMessage")),
            calls := [], cbOut := none })
  ∧ (storageAll ("channel") none).thrown = some (JsException.referenceError ("plural")) := by
  exact ⟨fun _ => rfl, fun _ => rfl, rfl⟩

/-- Claim C5: idempotent cache reads. For any id already present in a
partition, get returns the cached entity with no remote call and leaves
the partition untouched, no matter how many times it is called; save is an
explicit upsert affecting only its own key; and no get ever removes an
entry — entries never expire or get invalidated. -/
theorem cache_reads_idempotent :
    (∀ (part : Partition) (id : String) (e : Entity) (remote : TransportOutcome Entity),
        assocGet part id = some e →
        storageGet part id remote =
          { infoCalls := [], cbFirst := CbFirst.nullArg, cbSecond := some e, part := part })
  ∧ (∀ (part : Partition) (id : String) (remote : TransportOutcome Entity) (n : Nat),
        hasOwn part id = true → iterGetCalls part id remote n = [])
  ∧ (∀ (part : Partition) (e : Entity), assocGet (storageSave part e) e.id = some e)
  ∧ (∀ (part : Partition) (e : Entity) (k : String), k ≠ e.id →
        assocGet (storageSave part e) k = assocGet part k)
  ∧ (∀ (part : Partition) (id k : String) (remote : TransportOutcome Entity) (v : Entity),
        assocGet part k = some v →
        ∃ w, assocGet (storageGet part id remote).part k = some w) := by
  have hhit : ∀ (part : Partition) (id : String) (e : Entity) (remote : TransportOutcome Entity),
      assocGet part id = some e →
      storageGet part id remote =
        { infoCalls := [], cbFirst := CbFirst.nullArg, cbSecond := some e, part := part } := by
    intro part id e remote h
    simp [storageGet, hasOwn, h]
  refine ⟨hhit, ?_, ?_, ?_, ?_⟩
  · intro part id remote n h
    induction n with
    | zero => rfl
    | succ n ih =>
      have hpart : (storageGet part id remote).part = part := by
        simp [storageGet, h]
      have hcalls : (storageGet part id remote).infoCalls = [] := by
        simp [storageGet, h]
      simp [iterGetCalls, hpart, hcalls, ih]
  · intro part e
    simp [storageSave, assocGet_assocSet]
  · intro part e k hk
    simp [storageSave, assocGet_assocSet, Ne.symm hk]
  · intro part id k remote v hv
    by_cases h : hasOwn part id
    · exact ⟨v, by simp [storageGet, h, hv]⟩
    · cases hmr : makeRequest remote with
      | fail e => exact ⟨v, by simp [storageGet, h, hmr, hv]⟩
      | success body =>
        by_cases hid : body.payload.id = k
        · exact ⟨body.payload, by simp [storageGet, h, hmr, assocGet_assocSet, hid]⟩
        · exact ⟨v, by simp [storageGet, h, hmr, assocGet_assocSet, hid, hv]⟩

theorem cache_reads_idempotent_witness :
    storageGet [(("U1"), { id := ("U1"), payload := ("Spencer") })] ("U1")
        (TransportOutcome.err ("unreached")) =
      { infoCalls := [], cbFirst := CbFirst.nullArg,
        cbSecond := some { id := ("U1"), payload := ("Spencer") },
        part := [(("U1"), { id := ("U1"), payload := ("Spencer") })] }
  ∧ iterGetCalls [(("U1"), { id := ("U1"), payload := ("Spencer") })] ("U1")
      (TransportOutcome.err ("unreached")) 5 = []
  ∧ assocGet (storageSave [] { id := ("U2"), payload := ("x") }) ("U2") =
      some { id := ("U2"), payload := ("x") }
  ∧ assocGet (storageSave [(("U1"), { id := ("U1"), payload := ("Spencer") })]
        { id := ("U2"), payload := ("x") }) ("U1") =
      some { id := ("U1"), payload := ("Spencer") } := by
  refine ⟨cache_reads_idempotent.1 _ _ _ _ rfl,
    cache_reads_idempotent.2.1 _ _ _ 5 (by decide),
    cache_reads_idempotent.2.2.1 _ _, ?_⟩
  have h := cache_reads_idempotent.2.2.2.1 [(("U1"), { id := ("U1"), payload := ("Spencer") })]
    { id := ("U2"), payload := ("x") } ("U1") (by decide)
  rw [h]
  decide

theorem foldl_push_eq_map {α β : Type} (f : α → β) (l : List α) (acc : List β) :
    l.foldl (fun a x => a ++ [f x]) acc = acc ++ l.map f := by
  induction l generalizing acc with
  | nil => simp
  | cons hd tl ih => simp [List.foldl_cons, ih]

/-- Claim C9: the built request URL is the base URL concatenated with the
method name, then a query string joining key=value pairs with ampersands
in insertion order, where every value is percent-encoded and a value that
is neither a string nor a number is JSON-serialized first; string and
number values pass through without JSON serialization. -/
theorem slack_request_url_spec :
    (∀ (baseUrl method : String) (argObject : List (String × JSValue)),
        createSlackRequestUrl baseUrl method argObject =
          (baseUrl ++ method) ++ ("?") ++
            String.intercalate ("&")
              (argObject.map (fun p => p.1 ++ ("=") ++ encodeURIComponent (queryStringOf p.2))))
  ∧ (createSlackRequestUrl ("https://slack.com/api/") ("users.info")
        [(("user"), JSValue.str ("U123")), (("token"), JSValue.str ("T1"))] =
        ("https://slack.com/api/users.info?user=U123&token=T1"))
  ∧ (createSlackRequestUrl ("https://slack.com/api/") ("users.list")
        [(("limit"), JSValue.num 5)] = ("https://slack.com/api/users.list?limit=5"))
  ∧ (createSlackRequestUrl ("https://slack.com/api/") ("chat.postMessage")
        [(("attachments"), JSValue.arr [JSValue.obj [(("title"), JSValue.str ("x"))]])] =
        ("https://slack.com/api/chat.postMessage?attachments=%5B%7B%22title%22%3A%22x%22%7D%5D")) := by
  refine ⟨?_, by decide, by decide, by decide⟩
  intro baseUrl method argObject
  simp [createSlackRequestUrl, foldl_push_eq_map]

theorem splitChunks_ne_nil (msg : List Char) : splitChunks msg ≠ [] := by
  rw [splitChunks]
  split <;> simp

theorem splitChunks_chunk_le (msg : List Char) :
    ∀ c ∈ splitChunks msg, c.length ≤ 3000 := by
  induction msg using splitChunks.induct with
  | case1 msg h ih =>
    rw [splitChunks, dif_pos h]
    intro c hc
    rcases List.mem_cons.mp hc with rfl | hc2
    · simp [List.length_take]
    · exact ih c hc2
  | case2 msg h =>
    rw [splitChunks, dif_neg h]
    intro c hc
    simp only [List.mem_singleton] at hc
    subst hc
    omega

theorem splitChunks_flatten (msg : List Char) : (splitChunks msg).flatten = msg := by
  induction msg using splitChunks.induct with
  | case1 msg h ih =>
    rw [splitChunks, dif_pos h]
    simp [ih]
  | case2 msg h =>
    rw [splitChunks, dif_neg h]
    simp

theorem splitChunks_7500 (msg : List Char) (h : msg.length = 7500) :
    splitChunks msg =
      [msg.take 3000, (msg.drop 3000).take 3000, (msg.drop 3000).drop 3000] := by
  rw [splitChunks, dif_pos (by omega)]
  rw [splitChunks, dif_pos (by simp [List.length_drop]; omega)]
  rw [splitChunks, dif_neg (by simp [List.length_drop]; omega)]

theorem splitChunks_3000 (msg : List Char) (h : msg.length = 3000) :
    splitChunks msg = [msg, []] := by
  rw [splitChunks, dif_pos (by omega)]
  rw [List.take_of_length_le (by omega), List.drop_eq_nil_of_le (by omega)]
  rw [splitChunks, dif_neg (by simp)]

theorem foldl_string_append (l : List (List Char)) (acc : List Char) :
    (l.map (fun cs => String.mk cs)).foldl (fun r s => r ++ s) (String.mk acc) =
      String.mk (acc ++ l.flatten) := by
  induction l generalizing acc with
  | nil => simp
  | cons hd tl ih =>
    simp only [List.map_cons, List.foldl_cons]
    have : String.mk acc ++ String.mk hd = String.mk (acc ++ hd) := rfl
    rw [this, ih]
    simp

theorem string_join_mk (l : List (List Char)) :
    String.join (l.map (fun cs => String.mk cs)) = String.mk l.flatten := by
  have h := foldl_string_append l []
  simpa [String.join] using h

theorem jsFalsy_of_length_pos (t : String) (h : 0 < t.length) : jsFalsy (some t) = false := by
  have hne : t ≠ ("") := by
    intro he
    subst he
    simp at h
  simp [jsFalsy, beq_eq_false_iff_ne, hne]

theorem postMessage_long {β : Type} (t : String) (h : 2999 < t.length)
    (oracle : Nat → TransportOutcome β) :
    postMessage (some t) oracle =
      { thrown := none, calls := (runChunks oracle (chunksOf t) 0).1,
        cbOut := some (runChunks oracle (chunksOf t) 0).2 } := by
  have hne : jsFalsy (some t) = false := jsFalsy_of_length_pos t (by omega)
  simp [postMessage, hne, h]

theorem postMessage_short {β : Type} (t : String) (h1 : t ≠ ("")) (h2 : t.length < 3000)
    (oracle : Nat → TransportOutcome β) :
    postMessage (some t) oracle =
      { thrown := none, calls := [t],
        cbOut := some (callbackArgs (makeRequest (oracle 0))) } := by
  have hne : jsFalsy (some t) = false := by
    simp [jsFalsy, beq_eq_false_iff_ne, h1]
  have hlen : ¬2999 < t.length := by omega
  simp [postMessage, hne, hlen]

theorem runChunks_okOracleN (q : List String) :
    ∀ i : Nat, q ≠ [] →
    runChunks okOracleN q i =
      (q, (none, some { ok := true, error := none, payload := i + q.length - 1 })) := by
  induction q with
  | nil =>
    intro i h
    exact absurd rfl h
  | cons t rest ih =>
    intro i _h
    cases rest with
    | nil =>
      simp [runChunks, okOracleN, makeRequest]
    | cons r2 rest2 =>
      have hr := ih (i + 1) (by simp)
      have harith : (i + 1) + (r2 :: rest2 : List String).length - 1 =
          i + (t :: r2 :: rest2 : List String).length - 1 := by
        simp only [List.length_cons]
        omega
      rw [harith] at hr
      have hstep : runChunks okOracleN (t :: r2 :: rest2) i =
          (t :: (runChunks okOracleN (r2 :: rest2) (i + 1)).1,
           (runChunks okOracleN (r2 :: rest2) (i + 1)).2) := rfl
      rw [hstep, hr]

theorem runChunks_failAt1 (a b c : String) (rest : List String) (cause : String) :
    runChunks (failAt 1 cause) (a :: b :: c :: rest) 0 =
      ([a, b], (some (JsErr.errObj cause), none)) := by
  simp [runChunks, failAt, makeRequest]

/-- Claim C2: chat.postMessage splits text longer than the threshold into
ordered chunks of at most 3000 units that reassemble to the original text,
issues one dispatcher call per chunk strictly in order, stops at the first
failing chunk and reports that chunk's error, reports the final chunk's
response on full success; text of length 7500 yields exactly the chunk
lengths 3000, 3000, 1500, and a failure on the second call means no third
call is issued; text below the threshold is dispatched directly,
unmodified, in a single call. -/
theorem chat_postMessage_chunking :
    (∀ t : String, 3000 < t.length →
        (∀ c ∈ chunksOf t, c.length ≤ 3000)
      ∧ String.join (chunksOf t) = t
      ∧ postMessage (some t) okOracleN =
          { thrown := none, calls := chunksOf t,
            cbOut := some (none, some { ok := true, error := none, payload := (chunksOf t).length - 1 }) })
  ∧ (∀ t : String, t.length = 7500 →
        (chunksOf t).map String.length = [3000, 3000, 1500]
      ∧ postMessage (some t) okOracleN =
          { thrown := none, calls := chunksOf t,
            cbOut := some (none, some { ok := true, error := none, payload := 2 }) }
      ∧ (∀ cause : String, postMessage (some t) (failAt 1 cause) =
          { thrown := none, calls := (chunksOf t).take 2,
            cbOut := some (some (JsErr.errObj cause), none) }))
  ∧ (∀ (t : String) (oracle : Nat → TransportOutcome Nat), t ≠ ("") → t.length < 3000 →
        postMessage (some t) oracle =
          { thrown := none, calls := [t],
            cbOut := some (callbackArgs (makeRequest (oracle 0))) }) := by
  refine ⟨?_, ?_, ?_⟩
  · intro t ht
    have hchunks_ne : chunksOf t ≠ [] := by
      simp only [chunksOf, ne_eq, List.map_eq_nil_iff]
      exact splitChunks_ne_nil t.data
    refine ⟨?_, ?_, ?_⟩
    · intro c hc
      rcases List.mem_map.mp hc with ⟨cs, hcs, rfl⟩
      exact splitChunks_chunk_le t.data cs hcs
    · rw [chunksOf, string_join_mk, splitChunks_flatten]
    · rw [postMessage_long t (by omega) okOracleN,
        runChunks_okOracleN (chunksOf t) 0 hchunks_ne]
      simp
  · intro t ht
    have hlen : t.data.length = 7500 := ht
    have hc : chunksOf t =
        [String.mk (t.data.take 3000), String.mk ((t.data.drop 3000).take 3000),
         String.mk ((t.data.drop 3000).drop 3000)] := by
      rw [chunksOf, splitChunks_7500 t.data hlen]
      rfl
    refine ⟨?_, ?_, ?_⟩
    · rw [hc]
      simp [String.length, List.length_take, List.length_drop, hlen]
    · rw [postMessage_long t (by omega) okOracleN,
        runChunks_okOracleN (chunksOf t) 0 (by rw [hc]; simp)]
      rw [hc]
      simp
    · intro cause
      rw [postMessage_long t (by omega) (failAt 1 cause), hc, runChunks_failAt1]
      simp
  · intro t oracle h1 h2
    exact postMessage_short t h1 h2 oracle

theorem chat_postMessage_chunking_witness :
    postMessage (some (String.mk (List.replicate 7500 ('a')))) okOracleN =
      { thrown := none, calls := chunksOf (String.mk (List.replicate 7500 ('a'))),
        cbOut := some (none, some { ok := true, error := none, payload := 2 }) }
  ∧ postMessage (some (String.mk (List.replicate 7500 ('a')))) (failAt 1 ("ECONNRESET")) =
      { thrown := none, calls := (chunksOf (String.mk (List.replicate 7500 ('a')))).take 2,
        cbOut := some (some (JsErr.errObj ("ECONNRESET")), none) }
  ∧ postMessage (some ("hi")) okOracleN =
      { thrown := none, calls := [("hi")],
        cbOut := some (callbackArgs (makeRequest (okOracleN 0))) } := by
  have h75 : (String.mk (List.replicate 7500 ('a'))).length = 7500 := by
    show (List.replicate 7500 ('a')).length = 7500
    rw [List.length_replicate]
  exact ⟨(chat_postMessage_chunking.2.1 _ h75).2.1,
         (chat_postMessage_chunking.2.1 _ h75).2.2 _,
         chat_postMessage_chunking.2.2 _ _ (by decide) (by decide)⟩

/-- Claim C10: for text of length exactly 3000 chat.postMessage does not
dispatch directly: the guard (length greater than 2999) sends it down the
splitting path, whose loop leaves an empty remainder that is still pushed
as a final chunk, so exactly two sequential calls are issued — the first
with the full 3000-unit text, the second with empty text. -/
theorem chat_postMessage_threshold_edge (t : String) (h : t.length = 3000) :
    postMessage (some t) okOracleN =
      { thrown := none, calls := [t, ("")],
        cbOut := some (none, some { ok := true, error := none, payload := 1 }) } := by
  have hdata : t.data.length = 3000 := h
  have hc : chunksOf t = [t, ("")] := by
    rw [chunksOf, splitChunks_3000 t.data hdata]
    rfl
  rw [postMessage_long t (by omega) okOracleN,
    runChunks_okOracleN (chunksOf t) 0 (by rw [hc]; simp)]
  rw [hc]
  simp

theorem chat_postMessage_threshold_edge_witness :
    postMessage (some (String.mk (List.replicate 3000 ('a')))) okOracleN =
      { thrown := none, calls := [String.mk (List.replicate 3000 ('a')), ("")],
        cbOut := some (none, some { ok := true, error := none, payload := 1 }) } :=
  chat_postMessage_threshold_edge _ (by
    show (List.replicate 3000 ('a')).length = 3000
    rw [List.length_replicate])

end FrozorSlack
